import Mathlib

/-!
Shallow embedding of the Best Buy laptop deal-finder core (`src/app.py`,
with `src/deal_finder.py` as a near-duplicate variant), together with
theorems settling the frozen claims about its specification.

The Python code works over untrusted title strings with `re` patterns.
Each regular expression used by the source is embedded as a dedicated
leftmost-match scanner over `List Char`, reproducing the search order
(try every start position left to right), greediness, and the limited
backtracking each concrete pattern can perform.  Character classes
(`\d`, `\s`, `\w`) are modelled over their ASCII meaning.  Python floats
are modelled as exact rationals (`ℚ`); every magnitude the code parses
is a short decimal literal, where the two agree on all comparisons and
truncations performed here.
-/

namespace BB

/-- Python `\d` (ASCII digits). -/
def pyDigit (c : Char) : Bool := c.isDigit

/-- Python `\s` (ASCII whitespace: space, tab, newline, CR, VT, FF). -/
def pySpace (c : Char) : Bool :=
  c = ' ' || c = '\t' || c = '\n' || c = '\r' || c = '\x0b' || c = '\x0c'

/-- Python `\w` (ASCII word characters). -/
def pyWord (c : Char) : Bool := c.isAlphanum || c = '_'

/-- Numeric value of an ASCII digit. -/
def digitVal (c : Char) : Nat := c.toNat - '0'.toNat

/-- Value of a digit run, e.g. `['1','3'] ↦ 13`. -/
def digitsVal (ds : List Char) : Nat := ds.foldl (fun n c => 10 * n + digitVal c) 0

/-- Greedy `\s*`: drop leading whitespace. -/
def skipWS (s : List Char) : List Char := s.dropWhile pySpace

/-- Greedy `\s+`: at least one whitespace character, then drop the rest. -/
def skipWS1 : List Char → Option (List Char)
  | c :: rest => if pySpace c then some (skipWS rest) else none
  | [] => none

/-- Greedy `\d+` at the current position: maximal digit run and the rest. -/
def takeDigits (s : List Char) : List Char × List Char := s.span pyDigit

/-- Match a literal case-insensitively (for `re.IGNORECASE` patterns);
returns the rest of the input on success. -/
def litIC : List Char → List Char → Option (List Char)
  | [], s => some s
  | _ :: _, [] => none
  | p :: ps, c :: cs => if p.toLower = c.toLower then litIC ps cs else none

/-- Match a literal case-sensitively; returns the rest of the input. -/
def litCS : List Char → List Char → Option (List Char)
  | [], s => some s
  | _ :: _, [] => none
  | p :: ps, c :: cs => if p = c then litCS ps cs else none

/-- The Python substring test `pat in s`: `pat` occurs contiguously in `s`. -/
def isSubList (pat : List Char) : List Char → Bool
  | [] => pat.isEmpty
  | c :: rest => (litCS pat (c :: rest)).isSome || isSubList pat rest

/-- `re.search` driver: try the position matcher at every start position,
left to right, returning the first (leftmost) success.  This reproduces
the Python leftmost-match rule. -/
def searchPos {γ : Type} (m : List Char → Option γ) : List Char → Option γ
  | [] => m []
  | c :: rest =>
    match m (c :: rest) with
    | some g => some g
    | none => searchPos m rest

/-- `(\d+(?:\.\d+)?)` at the current position: greedy digits with an
optional fractional part (dot followed by at least one digit).  Returns
the captured text and the rest. -/
def numTokenAt (s : List Char) : Option (List Char × List Char) :=
  let (ds, r) := takeDigits s
  if ds.isEmpty then none
  else
    match r with
    | '.' :: r2 =>
      let (fs, r3) := takeDigits r2
      if fs.isEmpty then some (ds, r) else some (ds ++ '.' :: fs, r3)
    | _ => some (ds, r)

/-- Rational value of a captured decimal literal such as `15.6` (models
the Python `float(...)` conversion on the digit captures the code produces; the
decimal `d₁…dₙ.f₁…fₖ` denotes the rational `d₁…dₙf₁…fₖ / 10^k`). -/
def decVal (t : List Char) : ℚ :=
  let (ds, r) := t.span pyDigit
  match r with
  | '.' :: fs =>
    Rat.divInt ((digitsVal ds * 10 ^ fs.length + digitsVal fs : Nat) : Int)
      ((10 ^ fs.length : Nat) : Int)
  | _ => (digitsVal ds : ℚ)

/-- Python `int(...)` truncation of a rational: for the non-negative
values produced here this is the floor `⌊q⌋`, computed as
`q.num.toNat / q.den`. -/
def truncQ (q : ℚ) : Nat := q.num.toNat / q.den

/-- `re.search` of the bare magnitude pattern, returning the value of the first
(leftmost) decimal capture. -/
def findNumber (s : List Char) : Option ℚ :=
  (searchPos numTokenAt s).map (fun g => decVal g.1)

/-- `size_str.upper().replace(" ", "")` from `parse_size`. -/
def cleanSize (t : String) : List Char :=
  (t.data.map Char.toUpper).filter (fun c => c ≠ ' ')

/-- `parse_size` (`src/app.py:20`, identical in `src/deal_finder.py:30`):
`None`/empty input yields 0; otherwise uppercase and strip spaces; if
`"TB"` occurs, the first decimal magnitude times 1024 truncated to an
integer; else if `"GB"` occurs, the magnitude truncated; otherwise 0.
A unit with no numeric magnitude falls through to 0.  (The enclosing
`try/except` is unreachable for these digit-only captures; failure is
modelled by the `none` branches.) -/
def parse_size (o : Option String) : Nat :=
  match o with
  | none => 0
  | some t =>
    if t.data.isEmpty then 0
    else
      let s := cleanSize t
      match (if isSubList "TB".data s then findNumber s else none) with
      | some q => truncQ (q * 1024)
      | none =>
        match (if isSubList "GB".data s then findNumber s else none) with
        | some q => truncQ q
        | none => 0

/-! ### Processor patterns (`extract_specs`, `src/app.py:71-92`) -/

/-- `(i\d)-(\d{4,5})` (case-sensitive) at the current position: returns
the two captures.  `\d{4,5}` is greedy: five digits when a fifth is
present, otherwise four. -/
def intelAt : List Char → Option (List Char × List Char)
  | 'i' :: d :: '-' :: rest =>
    if pyDigit d then
      match rest with
      | a :: b :: c :: e :: rest2 =>
        if pyDigit a && pyDigit b && pyDigit c && pyDigit e then
          some (['i', d],
            match rest2 with
            | f :: _ => if pyDigit f then [a, b, c, e, f] else [a, b, c, e]
            | [] => [a, b, c, e])
        else none
      | _ => none
    else none
  | _ => none

/-- `Ultra\s*(\d+)` (ignore-case) at the current position. -/
def ultraTail (s : List Char) : Option (List Char) :=
  match litIC "Ultra".data s with
  | none => none
  | some r =>
    let (ds, _) := takeDigits (skipWS r)
    if ds.isEmpty then none else some ds

/-- `(?:Core\s+)?Ultra\s*(\d+)` (ignore-case) at the current position:
the optional `Core\s+` greedy group is tried first, then dropped. -/
def ultraAt (s : List Char) : Option (List Char) :=
  match (match litIC "Core".data s with
         | some r =>
           match skipWS1 r with
           | some r2 => ultraTail r2
           | none => none
         | none => none) with
  | some g => some g
  | none => ultraTail s

/-- `Ryzen\s*(\d)\s*(\d{4})` (ignore-case) at the current position. -/
def amdAt (s : List Char) : Option (List Char × List Char) :=
  match litIC "Ryzen".data s with
  | none => none
  | some r =>
    match skipWS r with
    | d :: r2 =>
      if pyDigit d then
        match skipWS r2 with
        | a :: b :: c :: e :: _ =>
          if pyDigit a && pyDigit b && pyDigit c && pyDigit e then
            some ([d], [a, b, c, e])
          else none
        | _ => none
      else none
    | [] => none

/-- Generation from the i-series model number: first two digits for a
five-digit model, first digit for a four-digit model (`intelAt` only
produces these two lengths). -/
def intelGen (g2 : List Char) : Nat :=
  if g2.length = 5 then digitsVal (g2.take 2) else digitsVal (g2.take 1)

/-- The processor part of `extract_specs`: i-series, then "Ultra", then
Ryzen, later successful matches overwriting earlier ones, starting from
the sentinels `(0, "Unknown")`. -/
def cpuExtract (s : List Char) : Nat × String :=
  let st0 : Nat × String := (0, "Unknown")
  let st1 :=
    match searchPos intelAt s with
    | some (g1, g2) => (intelGen g2, String.mk (g1 ++ '-' :: g2))
    | none => st0
  let st2 :=
    match searchPos ultraAt s with
    | some n => (14, "Ultra " ++ String.mk n)
    | none => st1
  match searchPos amdAt s with
  | some (g1, g2) =>
    (digitVal (g2.headD '0') + 6, "Ryzen " ++ String.mk g1 ++ " " ++ String.mk g2)
  | none => st2

/-! ### RAM patterns (`src/app.py:94-110`).  The loop checks each
first match of each pattern against the valid-size list; an invalid value
falls through to the next pattern. -/

/-- The `[,/\s]` separator class. -/
def sepCl (c : Char) : Bool := c = ',' || c = '/' || pySpace c

/-- `\s*(?:DDR\d?)?\s*RAM` at the current position (ignore-case), with
the optional group greedy backtracking (`DDR`+digit, `DDR`, empty). -/
def ramTail1 (r : List Char) : Bool :=
  let r1 := skipWS r
  let tryRam : List Char → Bool := fun x => (litIC "RAM".data (skipWS x)).isSome
  match litIC "DDR".data r1 with
  | some r2 =>
    (match r2 with
     | c :: r3 => if pyDigit c then (tryRam r3 || tryRam r2 || tryRam r1) else (tryRam r2 || tryRam r1)
     | [] => tryRam r2 || tryRam r1)
  | none => tryRam r1

/-- `(\d+)\s*GB\s*(?:DDR\d?)?\s*RAM`. -/
def ramP1At (s : List Char) : Option Nat :=
  let (ds, r) := takeDigits s
  if ds.isEmpty then none
  else
    match litIC "GB".data (skipWS r) with
    | some r2 => if ramTail1 r2 then some (digitsVal ds) else none
    | none => none

/-- `(\d+)\s*GB\s*DDR\d`. -/
def ramP2At (s : List Char) : Option Nat :=
  let (ds, r) := takeDigits s
  if ds.isEmpty then none
  else
    match litIC "GB".data (skipWS r) with
    | some r2 =>
      match litIC "DDR".data (skipWS r2) with
      | some (c :: _) => if pyDigit c then some (digitsVal ds) else none
      | _ => none
    | none => none

/-- `[,/\s](\d+)\s*GB[,/\s]`. -/
def ramP3At : List Char → Option Nat
  | c :: rest =>
    if sepCl c then
      let (ds, r) := takeDigits rest
      if ds.isEmpty then none
      else
        match litIC "GB".data (skipWS r) with
        | some (c2 :: _) => if sepCl c2 then some (digitsVal ds) else none
        | _ => none
    else none
  | [] => none

/-- `(\d+)GB(?:\s|,|/|-|$)`. -/
def ramP4At (s : List Char) : Option Nat :=
  let (ds, r) := takeDigits s
  if ds.isEmpty then none
  else
    match litIC "GB".data r with
    | some [] => some (digitsVal ds)
    | some (c :: _) =>
      if pySpace c || c = ',' || c = '/' || c = '-' then some (digitsVal ds) else none
    | none => none

/-- `[^\d](\d+)\s*GB\s+(?:Memory|Mem)`. -/
def ramP5At : List Char → Option Nat
  | c :: rest =>
    if pyDigit c then none
    else
      let (ds, r) := takeDigits rest
      if ds.isEmpty then none
      else
        match litIC "GB".data (skipWS r) with
        | some r2 =>
          match skipWS1 r2 with
          | some r3 =>
            if (litIC "Memory".data r3).isSome || (litIC "Mem".data r3).isSome then
              some (digitsVal ds)
            else none
          | none => none
        | none => none
  | [] => none

/-- `-\s*(\d+)GB`. -/
def ramP6At : List Char → Option Nat
  | '-' :: rest =>
    let (ds, r) := takeDigits (skipWS rest)
    if ds.isEmpty then none
    else if (litIC "GB".data r).isSome then some (digitsVal ds) else none
  | _ => none

/-- The valid laptop memory sizes checked by the loop. -/
def validRam (n : Nat) : Bool := [8, 12, 16, 24, 32, 48, 64, 96, 128].contains n

/-- The RAM loop: the first pattern whose (leftmost) match carries a
valid size wins; a pattern matching an invalid size does not stop the
loop. -/
def ramFromPatterns : List (Option Nat) → Nat
  | [] => 0
  | some v :: rest => if validRam v then v else ramFromPatterns rest
  | none :: rest => ramFromPatterns rest

def ramExtract (s : List Char) : Nat :=
  ramFromPatterns [searchPos ramP1At s, searchPos ramP2At s, searchPos ramP3At s,
    searchPos ramP4At s, searchPos ramP5At s, searchPos ramP6At s]

/-! ### Storage patterns (`src/app.py:112-128`).  The first matching
pattern wins unconditionally; two-group patterns feed `parse_size` with
`group1 ++ group2`, the one-group pattern with `group1 ++ "GB"`. -/

/-- `(TB|GB)` (ignore-case) at the current position, returning the
matched text (original casing) and the rest. -/
def unitAt (s : List Char) : Option (List Char × List Char) :=
  match litIC "TB".data s with
  | some r => some (s.take 2, r)
  | none =>
    match litIC "GB".data s with
    | some r => some (s.take 2, r)
    | none => none

/-- `(\d+(?:\.\d+)?)\s*(TB|GB)\s*SSD`. -/
def stoP1At (s : List Char) : Option (List Char × List Char) :=
  match numTokenAt s with
  | none => none
  | some (g1, r) =>
    match unitAt (skipWS r) with
    | none => none
    | some (g2, r2) =>
      if (litIC "SSD".data (skipWS r2)).isSome then some (g1, g2) else none

/-- `(\d+(?:\.\d+)?)\s*(TB|GB)\s*(?:NVMe|PCIe)`. -/
def stoP2At (s : List Char) : Option (List Char × List Char) :=
  match numTokenAt s with
  | none => none
  | some (g1, r) =>
    match unitAt (skipWS r) with
    | none => none
    | some (g2, r2) =>
      let r3 := skipWS r2
      if (litIC "NVMe".data r3).isSome || (litIC "PCIe".data r3).isSome then some (g1, g2)
      else none

/-- The `[:\s]` class of `SSD[:\s]*`. -/
def colonWS (c : Char) : Bool := c = ':' || pySpace c

/-- `SSD[:\s]*(\d+(?:\.\d+)?)\s*(TB|GB)`. -/
def stoP3At (s : List Char) : Option (List Char × List Char) :=
  match litIC "SSD".data s with
  | none => none
  | some r =>
    match numTokenAt (r.dropWhile colonWS) with
    | none => none
    | some (g1, r2) =>
      match unitAt (skipWS r2) with
      | some (g2, _) => some (g1, g2)
      | none => none

/-- `(\d+(?:\.\d+)?)\s*(TB|GB)\s*(?:Storage|Hard|Drive)`. -/
def stoP4At (s : List Char) : Option (List Char × List Char) :=
  match numTokenAt s with
  | none => none
  | some (g1, r) =>
    match unitAt (skipWS r) with
    | none => none
    | some (g2, r2) =>
      let r3 := skipWS r2
      if (litIC "Storage".data r3).isSome || (litIC "Hard".data r3).isSome
          || (litIC "Drive".data r3).isSome then some (g1, g2)
      else none

/-- `[,/\s](\d+)\s*(TB)[,/\s]`. -/
def stoP5At : List Char → Option (List Char × List Char)
  | c :: rest =>
    if sepCl c then
      let (ds, r) := takeDigits rest
      if ds.isEmpty then none
      else
        let r1 := skipWS r
        match litIC "TB".data r1 with
        | some (c2 :: _) => if sepCl c2 then some (ds, r1.take 2) else none
        | _ => none
    else none
  | [] => none

/-- The ordered alternation `(512|256|1024|2048)`. -/
def altNum (s : List Char) : Option (List Char × List Char) :=
  match litCS "512".data s with
  | some r => some ("512".data, r)
  | none =>
    match litCS "256".data s with
    | some r => some ("256".data, r)
    | none =>
      match litCS "1024".data s with
      | some r => some ("1024".data, r)
      | none =>
        match litCS "2048".data s with
        | some r => some ("2048".data, r)
        | none => none

/-- `[,/\s](512|256|1024|2048)\s*GB[,/\s]` (single capture group). -/
def stoP6At : List Char → Option (List Char)
  | c :: rest =>
    if sepCl c then
      match altNum rest with
      | some (g1, r) =>
        match litIC "GB".data (skipWS r) with
        | some (c2 :: _) => if sepCl c2 then some g1 else none
        | _ => none
      | none => none
    else none
  | [] => none

def storageExtract (s : List Char) : Nat :=
  match searchPos stoP1At s with
  | some (g1, g2) => parse_size (some (String.mk (g1 ++ g2)))
  | none =>
    match searchPos stoP2At s with
    | some (g1, g2) => parse_size (some (String.mk (g1 ++ g2)))
    | none =>
      match searchPos stoP3At s with
      | some (g1, g2) => parse_size (some (String.mk (g1 ++ g2)))
      | none =>
        match searchPos stoP4At s with
        | some (g1, g2) => parse_size (some (String.mk (g1 ++ g2)))
        | none =>
          match searchPos stoP5At s with
          | some (g1, g2) => parse_size (some (String.mk (g1 ++ g2)))
          | none =>
            match searchPos stoP6At s with
            | some g1 => parse_size (some (String.mk (g1 ++ "GB".data)))
            | none => 0

/-! ### GPU pattern `(RTX\s*\d{4}(?:\s*Ti)?|GTX\s*\d{4})` (ignore-case,
`src/app.py:130-133`).  The capture is the matched text; the code then
upper-cases it (its `.replace(" ", " ")` is a no-op). -/

def gpuAt (s : List Char) : Option (List Char) :=
  match litIC "RTX".data s with
  | some r1 =>
    (let (w1, r2) := r1.span pySpace
     match r2 with
     | a :: b :: c :: d :: r3 =>
       if pyDigit a && pyDigit b && pyDigit c && pyDigit d then
         let (w2, r4) := r3.span pySpace
         if (litIC "Ti".data r4).isSome then
           some (s.take 3 ++ w1 ++ [a, b, c, d] ++ w2 ++ r4.take 2)
         else some (s.take 3 ++ w1 ++ [a, b, c, d])
       else none
     | _ => none)
  | none =>
    match litIC "GTX".data s with
    | some r1 =>
      (let (w1, r2) := r1.span pySpace
       match r2 with
       | a :: b :: c :: d :: _ =>
         if pyDigit a && pyDigit b && pyDigit c && pyDigit d then
           some (s.take 3 ++ w1 ++ [a, b, c, d])
         else none
       | _ => none)
    | none => none

def gpuExtract (s : List Char) : String :=
  match searchPos gpuAt s with
  | some t => String.mk (t.map Char.toUpper)
  | none => "Integrated"

/-! ### Screen-size patterns (`src/app.py:135-147`).  Like the RAM loop,
a match outside the plausible range 10–20 falls through to the next
pattern. -/

/-- The candidates of `(\d{1,2}(?:\.\d)?)` at the current position in
regex backtracking order: two digits before one, a fractional digit
before none.  Each candidate is its rational value and the rest. -/
def fracOptQ (v : Nat) : List Char → List (ℚ × List Char)
  | '.' :: d :: r =>
    if pyDigit d then
      [(Rat.divInt ((v * 10 + digitVal d : Nat) : Int) 10, r), ((v : ℚ), '.' :: d :: r)]
    else [((v : ℚ), '.' :: d :: r)]
  | r => [((v : ℚ), r)]

def screenNumCands : List Char → List (ℚ × List Char)
  | a :: r =>
    if pyDigit a then
      match r with
      | b :: r2 =>
        if pyDigit b then
          fracOptQ (digitVal a * 10 + digitVal b) r2 ++ fracOptQ (digitVal a) (b :: r2)
        else fracOptQ (digitVal a) (b :: r2)
      | [] => fracOptQ (digitVal a) []
    else []
  | [] => []

/-- The inch-mark class `["”″]`. -/
def quoteChar (c : Char) : Bool := c = '\"' || c = '”' || c = '″'

/-- `(\d{1,2}(?:\.\d)?)["”″]\s*(?:FHD|QHD|UHD|HD|OLED|IPS|LED)?`:
the trailing `\s*(...)?` can always match empty, so only the quote mark
constrains the match. -/
def scrP1At (s : List Char) : Option ℚ :=
  (screenNumCands s).findSome? (fun vr =>
    match vr.2 with
    | c :: _ => if quoteChar c then some vr.1 else none
    | [] => none)

/-- `\b` ahead: end of input or a non-word character. -/
def wordBoundary : List Char → Bool
  | [] => true
  | c :: _ => !pyWord c

/-- `(\d{1,2}(?:\.\d)?)\s*(?:inch|in)\b`, alternation trying `inch`
before `in`. -/
def scrP2At (s : List Char) : Option ℚ :=
  (screenNumCands s).findSome? (fun vr =>
    let r1 := skipWS vr.2
    let tryIn : Bool :=
      match litIC "in".data r1 with
      | some r3 => wordBoundary r3
      | none => false
    match litIC "inch".data r1 with
    | some r2 => if wordBoundary r2 || tryIn then some vr.1 else none
    | none => if tryIn then some vr.1 else none)

/-- `(\d{1,2}(?:\.\d)?)\s*(?:FHD|QHD|UHD|HD|OLED)`. -/
def scrP3At (s : List Char) : Option ℚ :=
  (screenNumCands s).findSome? (fun vr =>
    let r1 := skipWS vr.2
    if (litIC "FHD".data r1).isSome || (litIC "QHD".data r1).isSome
        || (litIC "UHD".data r1).isSome || (litIC "HD".data r1).isSome
        || (litIC "OLED".data r1).isSome then some vr.1
    else none)

/-- The screen loop with its 10–20 plausibility filter. -/
def screenFromPatterns : List (Option ℚ) → ℚ
  | [] => 0
  | some v :: rest => if 10 ≤ v ∧ v ≤ 20 then v else screenFromPatterns rest
  | none :: rest => screenFromPatterns rest

def screenExtract (s : List Char) : ℚ :=
  screenFromPatterns [searchPos scrP1At s, searchPos scrP2At s, searchPos scrP3At s]

/-! ### Resolution patterns (`src/app.py:149-173`): an ordered table of
word-boundary keyword patterns; the first match wins.  The "OLED" entry
is the final key of the table, so its special `continue` simply ends
the loop and is equivalent to taking "OLED" when nothing else matched. -/

def prevNonWord : Option Char → Bool
  | none => true
  | some p => !pyWord p

/-- Match `\b<w>` plus either a literal `+` (`plus`) or a trailing `\b`
(`endB`) at the current position (ignore-case). -/
def wordAt (w : List Char) (plus endB : Bool) (s : List Char) : Bool :=
  match litIC w s with
  | none => false
  | some r =>
    if plus then
      match r with
      | '+' :: _ => true
      | _ => false
    else if endB then wordBoundary r
    else true

/-- Search the whole string for `\b<w>…`, tracking the previous
character for the leading word boundary. -/
def searchWord (w : List Char) (plus endB : Bool) : Option Char → List Char → Bool
  | prev, [] => prevNonWord prev && wordAt w plus endB []
  | prev, c :: rest =>
    (prevNonWord prev && wordAt w plus endB (c :: rest)) || searchWord w plus endB (some c) rest

/-- The resolution table in source order (pattern word, `\+` flag,
trailing-`\b` flag, label). -/
def resolutionTable : List (List Char × Bool × Bool × String) :=
  [("4K".data, false, true, "4K UHD"), ("UHD".data, false, true, "4K UHD"),
   ("QHD".data, true, false, "QHD+"), ("QHD".data, false, true, "QHD"),
   ("WQXGA".data, false, true, "WQXGA"), ("FHD".data, true, false, "FHD+"),
   ("FHD".data, false, true, "FHD"), ("1080p".data, false, true, "FHD"),
   ("1440p".data, false, true, "QHD"), ("2160p".data, false, true, "4K UHD"),
   ("HD".data, true, false, "HD+"), ("HD".data, false, true, "HD"),
   ("OLED".data, false, true, "OLED")]

def resolutionFromList (s : List Char) : List (List Char × Bool × Bool × String) → String
  | [] => "Unknown"
  | (w, plus, endB, lab) :: rest =>
    if searchWord w plus endB none s then lab else resolutionFromList s rest

def resolutionExtract (s : List Char) : String :=
  resolutionFromList s resolutionTable

/-! ### The assembled extractor and the condition classifier. -/

/-- The spec record built by `extract_specs` (`src/app.py:59-175`);
every field starts at its "undetected" sentinel. -/
structure Specs where
  cpu_gen : Nat
  cpu_model : String
  ram : Nat
  storage : Nat
  gpu : String
  screen_size : ℚ
  resolution : String
deriving DecidableEq

/-- `extract_specs`: each field group of the Python function reads only
the title, so the sequential dictionary updates are assembled here as
independent per-field extractors. -/
def extract_specs (name : String) : Specs :=
  let s := name.data
  { cpu_gen := (cpuExtract s).1
    cpu_model := (cpuExtract s).2
    ram := ramExtract s
    storage := storageExtract s
    gpu := gpuExtract s
    screen_size := screenExtract s
    resolution := resolutionExtract s }

/-- `str.lower()` over ASCII. -/
def lowerL (s : List Char) : List Char := s.map Char.toLower

/-- `extract_condition` (`src/app.py:40-56`): priority scan of the
lower-cased title. -/
def extract_condition (name : String) : String :=
  let l := lowerL name.data
  if isSubList "refurbished".data l then
    if isSubList "(excellent)".data l || isSubList "excellent".data l then
      "Refurbished (Excellent)"
    else if isSubList "(good)".data l || isSubList "good".data l then
      "Refurbished (Good)"
    else if isSubList "(fair)".data l then
      "Refurbished (Fair)"
    else "Refurbished"
  else if isSubList "open box".data l then "Open Box"
  else "New"

/-! ### Scoring and ranking (`analyze_deals`, `src/app.py:420-520`, and
`analyze_deals_with_filters`, `src/app.py:523-650`). -/

/-- The `resolution_rank` dictionary (`src/app.py:469`), with the
default `d` of the `.get` access. -/
def resolution_rank (s : String) (d : Nat) : Nat :=
  if s = "HD" then 1 else if s = "HD+" then 2 else if s = "FHD" then 3
  else if s = "FHD+" then 4 else if s = "QHD" then 5 else if s = "WQXGA" then 5
  else if s = "QHD+" then 6 else if s = "4K UHD" then 7 else if s = "OLED" then 4
  else if s = "Unknown" then 0 else d

/-- The current system of the user (`current_specs`), always supplied with
all five keys by all callers in the app. -/
structure CurrentSpecs where
  cpu_gen : Nat
  ram : Nat
  storage : Nat
  screen_size : ℚ
  resolution : String
deriving DecidableEq

/-- The minimum-requirements configuration (`min_specs`). -/
structure MinSpecs where
  cpu_gen : Nat
  ram : Nat
  storage : Nat
  screen_size : ℚ
  resolution : String
deriving DecidableEq

/-- `better_cpu` in base mode (`src/app.py:461`): unguarded. -/
def better_cpu (s : Specs) (c : CurrentSpecs) : Bool := decide (c.cpu_gen < s.cpu_gen)

/-- `better_ram` (`src/app.py:462`, identical in filters mode). -/
def better_ram (s : Specs) (c : CurrentSpecs) : Bool := decide (c.ram < s.ram)

/-- `better_storage` in base mode (`src/app.py:463`): non-strict and
unguarded on detection. -/
def better_storage (s : Specs) (c : CurrentSpecs) : Bool := decide (c.storage ≤ s.storage)

/-- `bigger_screen` (`src/app.py:466`): guarded on detection. -/
def bigger_screen (s : Specs) (c : CurrentSpecs) : Bool :=
  if 0 < s.screen_size then decide (c.screen_size < s.screen_size) else false

/-- `better_resolution` (`src/app.py:468-472`): guarded on detection;
the product side defaults to rank 0, the baseline side to rank 3. -/
def better_resolution (s : Specs) (c : CurrentSpecs) : Bool :=
  let pr := resolution_rank s.resolution 0
  if 0 < pr then decide (resolution_rank c.resolution 3 < pr) else false

/-- `if saving > 0` (`src/app.py:499`). -/
def better_saving (sav : ℚ) : Bool := decide (0 < sav)

/-- `better_cpu` in filters mode (`src/app.py:596`): guarded. -/
def better_cpuF (s : Specs) (c : CurrentSpecs) : Bool :=
  if 0 < s.cpu_gen then decide (c.cpu_gen < s.cpu_gen) else false

/-- `better_storage` in filters mode (`src/app.py:598`): guarded. -/
def better_storageF (s : Specs) (c : CurrentSpecs) : Bool :=
  if 0 < s.storage then decide (c.storage ≤ s.storage) else false

/-- Upgrade notes, modelled structurally: each constructor stands for
one of the f-string notes (`"CPU+ (Gen {g})"`, `"RAM+ ({n}GB)"`,
`"Storage+ ({n}GB)"`, `"Storage- ({n}GB)"`, `"Screen+ ({q}\")"`,
`"Res+ ({r})"`). -/
inductive Note where
  | cpuPlus (gen : Nat)
  | ramPlus (gb : Nat)
  | storagePlus (gb : Nat)
  | storageMinus (gb : Nat)
  | screenPlus (size : ℚ)
  | resPlus (r : String)
deriving DecidableEq

/-- The base-mode notes (`src/app.py:474-486`), in source append
order; the `Storage-` note fires when storage is detected but strictly
below the baseline. -/
def notesBase (s : Specs) (c : CurrentSpecs) : List Note :=
  (if better_cpu s c then [Note.cpuPlus s.cpu_gen] else []) ++
  (if better_ram s c then [Note.ramPlus s.ram] else []) ++
  (if better_storage s c then [Note.storagePlus s.storage]
   else if 0 < s.storage ∧ s.storage < c.storage then [Note.storageMinus s.storage] else []) ++
  (if bigger_screen s c then [Note.screenPlus s.screen_size] else []) ++
  (if better_resolution s c then [Note.resPlus s.resolution] else [])

/-- The filters-mode notes (`src/app.py:605-616`): no `Storage-`
branch, and the guarded cpu/storage dimensions. -/
def notesFilters (s : Specs) (c : CurrentSpecs) : List Note :=
  (if better_cpuF s c then [Note.cpuPlus s.cpu_gen] else []) ++
  (if better_ram s c then [Note.ramPlus s.ram] else []) ++
  (if better_storageF s c then [Note.storagePlus s.storage] else []) ++
  (if bigger_screen s c then [Note.screenPlus s.screen_size] else []) ++
  (if better_resolution s c then [Note.resPlus s.resolution] else [])

/-- Base-mode composite score (`src/app.py:488-500`). -/
def scoreBase (s : Specs) (c : CurrentSpecs) (saving : ℚ) : Nat :=
  (if better_cpu s c then 2 else 0) + (if better_ram s c then 2 else 0) +
  (if better_storage s c then 1 else 0) + (if bigger_screen s c then 1 else 0) +
  (if better_resolution s c then 1 else 0) + (if better_saving saving then 1 else 0)

/-- Filters-mode composite score (`src/app.py:618-631`), over the
guarded dimensions. -/
def scoreFilters (s : Specs) (c : CurrentSpecs) (saving : ℚ) : Nat :=
  (if better_cpuF s c then 2 else 0) + (if better_ram s c then 2 else 0) +
  (if better_storageF s c then 1 else 0) + (if bigger_screen s c then 1 else 0) +
  (if better_resolution s c then 1 else 0) + (if better_saving saving then 1 else 0)

/-- `Bool` to `Nat`. -/
def b2n (b : Bool) : Nat := if b then 1 else 0

/-- The documented weighted sum over the six dimension booleans. -/
def compositeScore (bc br bs bsc bres bsav : Bool) : Nat :=
  2 * b2n bc + 2 * b2n br + b2n bs + b2n bsc + b2n bres + b2n bsav

/-! ### Raw product records and price/sku/url resolution. -/

/-- A price-field value: a number, or a compound mapping (Python dict)
with rational entries.  Truthiness follows Python: a number is truthy
iff non-zero, a mapping iff non-empty. -/
inductive PVal where
  | num (q : ℚ)
  | obj (fields : List (String × ℚ))
deriving DecidableEq

def pvTruthy : PVal → Bool
  | .num q => decide (q ≠ 0)
  | .obj f => !f.isEmpty

/-- A raw product record with the fields the analysis reads; `none`
models an absent key. -/
structure Record where
  name : String
  priceWithoutEhf : Option PVal
  customerPrice : Option PVal
  price : Option PVal
  saving : Option ℚ
  sku : Option String
  skuId : Option String
  seoUrl : Option String
  source : Option String
deriving DecidableEq

/-- Python `a or b` where `b` is already a value: keep `a` when present
and truthy, else `b`. -/
def pyOrV (a : Option PVal) (b : PVal) : PVal :=
  match a with
  | some v => if pvTruthy v then v else b
  | none => b

/-- The chain `priceWithoutEhf or customerPrice or price-default-0`
(`src/app.py:434`; the Python `or` is associative over truthiness, so
the right-nested form below equals the left-nested chain of the
source). -/
def resolvedPriceRaw (p : Record) : PVal :=
  pyOrV p.priceWithoutEhf (pyOrV p.customerPrice (p.price.getD (.num 0)))

/-- The compound unwrap (`.get` of the customerPrice key, default 0)
applied when
the resolved value is a dict (`src/app.py:435-436`). -/
def unwrapPrice : PVal → ℚ
  | .num q => q
  | .obj fs => (fs.lookup "customerPrice").getD 0

def resolve_price (p : Record) : ℚ := unwrapPrice (resolvedPriceRaw p)

/-- `sku or skuId-default-empty` (`src/app.py:439`): a present
but empty sku string is falsy. -/
def resolve_sku (p : Record) : String :=
  match p.sku with
  | some s => if s ≠ "" then s else p.skuId.getD ""
  | none => p.skuId.getD ""

def baseUrlFor (country : String) : String :=
  if country = "US" then "https://www.bestbuy.com" else "https://www.bestbuy.ca"

/-- URL resolution (`src/app.py:450-459`). -/
def buildUrl (country sku seo_url : String) : String :=
  if seo_url ≠ "" ∧ seo_url.startsWith "http" then seo_url
  else if country = "US" then
    (if sku ≠ "" then baseUrlFor country ++ "/site/" ++ sku ++ ".p?skuId=" ++ sku else seo_url)
  else if seo_url ≠ "" then baseUrlFor country ++ seo_url
  else if sku ≠ "" then baseUrlFor country ++ "/en-ca/product/" ++ sku else "#"

/-- A scored deal (`src/app.py:502-514`). -/
structure Deal where
  name : String
  price : ℚ
  saving : ℚ
  specs : Specs
  condition : String
  notes : List Note
  score : Nat
  url : String
  sku : String
  source : String
  is_upgrade : Bool
deriving DecidableEq

/-- One iteration of the base-mode loop body (`src/app.py:430-514`). -/
def mkDealBase (country : String) (cur : CurrentSpecs) (p : Record) : Deal :=
  let specs := extract_specs p.name
  let saving := p.saving.getD 0
  let sku := resolve_sku p
  { name := p.name
    price := resolve_price p
    saving := saving
    specs := specs
    condition := extract_condition p.name
    notes := notesBase specs cur
    score := scoreBase specs cur saving
    url := buildUrl country sku (p.seoUrl.getD "")
    sku := sku
    source := p.source.getD ""
    is_upgrade := better_cpu specs cur || better_ram specs cur }

/-- One iteration of the filters-mode loop body (`src/app.py:541-645`);
`is_upgrade` additionally counts the guarded storage dimension. -/
def mkDealFilters (country : String) (cur : CurrentSpecs) (p : Record) : Deal :=
  let specs := extract_specs p.name
  let saving := p.saving.getD 0
  let sku := resolve_sku p
  { name := p.name
    price := resolve_price p
    saving := saving
    specs := specs
    condition := extract_condition p.name
    notes := notesFilters specs cur
    score := scoreFilters specs cur saving
    url := buildUrl country sku (p.seoUrl.getD "")
    sku := sku
    source := p.source.getD ""
    is_upgrade := better_cpuF specs cur || better_ram specs cur || better_storageF specs cur }

/-- The sort key comparison of `deals.sort` with key `(-score, price)`
(`src/app.py:519`): non-strict lexicographic order on `(-score, price)`.
`mergeSort` with this total preorder models the stable CPython sort: both
produce the unique output that is sorted by the key and preserves the
input order of key-ties. -/
def dealLE (a b : Deal) : Bool :=
  decide (b.score < a.score) || (decide (a.score = b.score) && decide (a.price ≤ b.price))

/-- The deals retained by the base-mode loop, in input order:
`filter_incomplete` drops undetected-RAM records (`src/app.py:446-448`),
and non-upgrades are kept only under `show_all` (`src/app.py:516-517`). -/
def dealsPreBase (products : List Record) (cur : CurrentSpecs) (show_all : Bool)
    (country : String) (filter_incomplete : Bool) : List Deal :=
  products.filterMap (fun p =>
    let d := mkDealBase country cur p
    if filter_incomplete && decide (d.specs.ram = 0) then none
    else if show_all || d.is_upgrade then some d else none)

/-- `analyze_deals` (`src/app.py:420-520`): build, filter, sort; also
return the skipped-incomplete count. -/
def analyze_deals (products : List Record) (cur : CurrentSpecs) (show_all : Bool)
    (country : String) (filter_incomplete : Bool) : List Deal × Nat :=
  ((dealsPreBase products cur show_all country filter_incomplete).mergeSort dealLE,
    products.countP (fun p =>
      filter_incomplete && decide ((extract_specs p.name).ram = 0)))

/-- The filtering of `analyze_deals_with_filters` (`src/app.py:555-581`):
`true` when the candidate is skipped.  Undetected RAM is skipped
unconditionally; under `show_all` the per-dimension minimum checks are
bypassed. -/
def excludedFilters (s : Specs) (m : MinSpecs) (show_all : Bool) : Bool :=
  if s.ram = 0 then true
  else if !show_all then
    if s.ram < m.ram then true
    else if 0 < s.storage ∧ s.storage < m.storage then true
    else if 0 < s.cpu_gen ∧ s.cpu_gen < m.cpu_gen then true
    else if 0 < s.screen_size ∧ s.screen_size < m.screen_size then true
    else if 0 < resolution_rank s.resolution 0 ∧
        resolution_rank s.resolution 0 < resolution_rank m.resolution 3 then true
    else false
  else false

/-- The deals retained by the filters-mode loop, in input order. -/
def dealsPreFilters (products : List Record) (cur : CurrentSpecs) (m : MinSpecs)
    (show_all : Bool) (country : String) : List Deal :=
  products.filterMap (fun p =>
    if excludedFilters (extract_specs p.name) m show_all then none
    else some (mkDealFilters country cur p))

/-- `analyze_deals_with_filters` (`src/app.py:523-650`). -/
def analyze_deals_with_filters (products : List Record) (cur : CurrentSpecs)
    (m : MinSpecs) (show_all : Bool) (country : String) : List Deal × Nat :=
  ((dealsPreFilters products cur m show_all country).mergeSort dealLE,
    products.countP (fun p => excludedFilters (extract_specs p.name) m show_all))

/-! ### Claim-side definitions and concrete example inputs. -/

/-- Claim-side predicate, written from the C5 wording: some minimum
dimension (memory, storage, processor generation, display size, or
resolution) was detected on the product and falls strictly below the
declared minimum.  To be compared with `excludedFilters` from the
source. -/
def specBelowMinimum (s : Specs) (m : MinSpecs) : Prop :=
  (0 < s.ram ∧ s.ram < m.ram) ∨
  (0 < s.storage ∧ s.storage < m.storage) ∨
  (0 < s.cpu_gen ∧ s.cpu_gen < m.cpu_gen) ∨
  (0 < s.screen_size ∧ s.screen_size < m.screen_size) ∨
  (0 < resolution_rank s.resolution 0 ∧
    resolution_rank s.resolution 0 < resolution_rank m.resolution 3)

/-- Python falsiness of an optional price value: absent, zero, or an
empty mapping. -/
def falsyOpt : Option PVal → Bool
  | none => true
  | some v => !pvTruthy v

/-- A record whose highest-precedence price field is present but zero,
while the next candidate holds 500. -/
def recZeroEhf : Record :=
  { name := "", priceWithoutEhf := some (.num 0), customerPrice := some (.num 500),
    price := none, saving := none, sku := none, skuId := none, seoUrl := none, source := none }

/-- A record whose highest-precedence price field is present and
truthy. -/
def recEhf750 : Record :=
  { name := "", priceWithoutEhf := some (.num 750), customerPrice := some (.num 500),
    price := none, saving := none, sku := none, skuId := none, seoUrl := none, source := none }

/-- A record with no price fields at all. -/
def recNoPrice : Record :=
  { name := "", priceWithoutEhf := none, customerPrice := none,
    price := none, saving := none, sku := none, skuId := none, seoUrl := none, source := none }

/-- A baseline used by the concrete policy-difference example. -/
def curExample : CurrentSpecs :=
  { cpu_gen := 10, ram := 16, storage := 512, screen_size := 15, resolution := "FHD" }

/-- A record that is no upgrade under the base policy (cpu and memory
not better) but an upgrade under the filters policy (storage detected
and at least the baseline). -/
def recStorageTie : Record :=
  { name := "Laptop 8GB RAM 512GB SSD", priceWithoutEhf := none, customerPrice := none,
    price := some (.num 999), saving := some 0, sku := none, skuId := none,
    seoUrl := none, source := none }

end BB

/-! ## Helper theorems -/

theorem truncQ_eq_floor (q : ℚ) (h : 0 ≤ q) : (BB.truncQ q : ℤ) = ⌊q⌋ := by
  have hn : 0 ≤ q.num := Rat.num_nonneg.mpr h
  rw [Rat.floor_def, BB.truncQ, Int.natCast_div, Int.toNat_of_nonneg hn]

/-- When `"TB"` occurs in the cleaned token and a magnitude is found,
`parse_size` returns the terabyte interpretation. -/
theorem parse_size_TB (t : String) (q : ℚ)
    (h : BB.isSubList "TB".data (BB.cleanSize t) = true)
    (hn : BB.findNumber (BB.cleanSize t) = some q) :
    BB.parse_size (some t) = BB.truncQ (q * 1024) := by
  have hne : t.data.isEmpty = false := by
    rcases h' : t.data.isEmpty with _ | _
    · rfl
    · rw [List.isEmpty_iff] at h'
      simp [BB.cleanSize, h'] at h
      exact absurd h (by decide)
  simp only [BB.parse_size, hne, Bool.false_eq_true, if_false, h, if_true, hn]

/-- C4: the size normalizer maps "1TB" to 1024, "512GB" to 512, `None`,
the empty string and "abcGB" to 0; and whenever the cleaned token
contains both "TB" and "GB" together with a numeric magnitude, the
terabyte interpretation (magnitude × 1024, truncated) is applied. -/
theorem C4_parse_size :
    BB.parse_size (some "1TB") = 1024 ∧
    BB.parse_size (some "512GB") = 512 ∧
    BB.parse_size none = 0 ∧
    BB.parse_size (some "") = 0 ∧
    BB.parse_size (some "abcGB") = 0 ∧
    (∀ (t : String) (q : ℚ),
      BB.isSubList "TB".data (BB.cleanSize t) = true →
      BB.isSubList "GB".data (BB.cleanSize t) = true →
      BB.findNumber (BB.cleanSize t) = some q →
      BB.parse_size (some t) = BB.truncQ (q * 1024)) := by
  refine ⟨?_, by decide, rfl, by decide, by decide, ?_⟩
  · have h1 := parse_size_TB "1TB" 1 (by decide) (by decide)
    rw [h1, show ((1 : ℚ) * 1024) = 1024 from by norm_num]
    decide
  · intro t q htb _ hnum
    exact parse_size_TB t q htb hnum

/-- Witness for C4 on the concrete token "1.5TBGB": both unit substrings
present, magnitude 1.5, and the result is the terabyte interpretation. -/
theorem C4_parse_size_witness :
    BB.isSubList "TB".data (BB.cleanSize "1.5TBGB") = true ∧
    BB.isSubList "GB".data (BB.cleanSize "1.5TBGB") = true ∧
    BB.findNumber (BB.cleanSize "1.5TBGB") = some (Rat.divInt 3 2) ∧
    BB.parse_size (some "1.5TBGB") = BB.truncQ (Rat.divInt 3 2 * 1024) :=
  ⟨by decide, by decide, by decide,
    C4_parse_size.2.2.2.2.2 "1.5TBGB" (Rat.divInt 3 2) (by decide) (by decide) (by decide)⟩

/-! ## Claim C1 -/

/-- C1: the base composite score equals the documented weighted sum
2·(processor) + 2·(memory) + 1·(storage) + 1·(display size) +
1·(resolution) + 1·(savings > 0) of the dimension booleans, and
flipping any single dimension from false to true (others fixed)
increases the sum by exactly the weight of that dimension. -/
theorem C1_score_weights :
    (∀ (s : BB.Specs) (c : BB.CurrentSpecs) (sav : ℚ),
      BB.scoreBase s c sav =
        BB.compositeScore (BB.better_cpu s c) (BB.better_ram s c) (BB.better_storage s c)
          (BB.bigger_screen s c) (BB.better_resolution s c) (BB.better_saving sav)) ∧
    (∀ b2 b3 b4 b5 b6 : Bool,
      BB.compositeScore true b2 b3 b4 b5 b6 = BB.compositeScore false b2 b3 b4 b5 b6 + 2) ∧
    (∀ b1 b3 b4 b5 b6 : Bool,
      BB.compositeScore b1 true b3 b4 b5 b6 = BB.compositeScore b1 false b3 b4 b5 b6 + 2) ∧
    (∀ b1 b2 b4 b5 b6 : Bool,
      BB.compositeScore b1 b2 true b4 b5 b6 = BB.compositeScore b1 b2 false b4 b5 b6 + 1) ∧
    (∀ b1 b2 b3 b5 b6 : Bool,
      BB.compositeScore b1 b2 b3 true b5 b6 = BB.compositeScore b1 b2 b3 false b5 b6 + 1) ∧
    (∀ b1 b2 b3 b4 b6 : Bool,
      BB.compositeScore b1 b2 b3 b4 true b6 = BB.compositeScore b1 b2 b3 b4 false b6 + 1) ∧
    (∀ b1 b2 b3 b4 b5 : Bool,
      BB.compositeScore b1 b2 b3 b4 b5 true = BB.compositeScore b1 b2 b3 b4 b5 false + 1) := by
  refine ⟨?_, by decide, by decide, by decide, by decide, by decide, by decide⟩
  intro s c sav
  unfold BB.scoreBase BB.compositeScore BB.b2n
  cases BB.better_cpu s c <;> cases BB.better_ram s c <;> cases BB.better_storage s c <;>
    cases BB.bigger_screen s c <;> cases BB.better_resolution s c <;>
    cases BB.better_saving sav <;> rfl

/-! ## Claim C7 -/

/-- C7: the base-mode upgrade flag is processor-better OR memory-better
(storage never enters), the filters-mode flag additionally counts the
guarded storage dimension, and the two policies disagree on a concrete
record/baseline pair. -/
theorem C7_upgrade_policies :
    (∀ (country : String) (cur : BB.CurrentSpecs) (p : BB.Record),
      (BB.mkDealBase country cur p).is_upgrade =
        (BB.better_cpu (BB.extract_specs p.name) cur ||
          BB.better_ram (BB.extract_specs p.name) cur)) ∧
    (∀ (country : String) (cur : BB.CurrentSpecs) (p : BB.Record),
      (BB.mkDealFilters country cur p).is_upgrade =
        (BB.better_cpuF (BB.extract_specs p.name) cur ||
          BB.better_ram (BB.extract_specs p.name) cur ||
          BB.better_storageF (BB.extract_specs p.name) cur)) ∧
    (BB.mkDealBase "CA" BB.curExample BB.recStorageTie).is_upgrade = false ∧
    (BB.mkDealFilters "CA" BB.curExample BB.recStorageTie).is_upgrade = true := by
  refine ⟨fun country cur p => rfl, fun country cur p => rfl, by decide, by decide⟩

/-! ## Claim C10 -/

/-- C10: in base mode the storage comparison is not guarded on
detection: undetected storage (0) against a zero-storage baseline
counts as storage-better, contributes its +1 weight to the score, and
emits a `Storage+ (0GB)` note, whereas the filters-mode guarded
dimension is false on the same pair. -/
theorem C10_storage_unguarded :
    ∀ (s : BB.Specs) (c : BB.CurrentSpecs) (sav : ℚ),
      s.storage = 0 → c.storage = 0 →
      BB.better_storage s c = true ∧
      BB.scoreBase s c sav =
        1 + BB.compositeScore (BB.better_cpu s c) (BB.better_ram s c) false
          (BB.bigger_screen s c) (BB.better_resolution s c) (BB.better_saving sav) ∧
      BB.Note.storagePlus 0 ∈ BB.notesBase s c ∧
      BB.better_storageF s c = false := by
  intro s c sav h1 h2
  have hbs : BB.better_storage s c = true := by
    simp [BB.better_storage, h1, h2]
  refine ⟨hbs, ?_, ?_, ?_⟩
  · unfold BB.scoreBase BB.compositeScore BB.b2n
    rw [hbs]
    cases BB.better_cpu s c <;> cases BB.better_ram s c <;> cases BB.bigger_screen s c <;>
      cases BB.better_resolution s c <;> cases BB.better_saving sav <;> rfl
  · simp [BB.notesBase, hbs, h1]
  · simp [BB.better_storageF, h1]

/-- Witness for C10 at a concrete all-sentinel spec, zero-storage
baseline and saving 5. -/
theorem C10_storage_unguarded_witness :
    (BB.Specs.mk 0 "Unknown" 0 0 "Integrated" 0 "Unknown").storage = 0 ∧
    (BB.CurrentSpecs.mk 0 0 0 0 "FHD").storage = 0 ∧
    (BB.better_storage (BB.Specs.mk 0 "Unknown" 0 0 "Integrated" 0 "Unknown")
        (BB.CurrentSpecs.mk 0 0 0 0 "FHD") = true ∧
      BB.scoreBase (BB.Specs.mk 0 "Unknown" 0 0 "Integrated" 0 "Unknown")
          (BB.CurrentSpecs.mk 0 0 0 0 "FHD") 5 =
        1 + BB.compositeScore
          (BB.better_cpu (BB.Specs.mk 0 "Unknown" 0 0 "Integrated" 0 "Unknown")
            (BB.CurrentSpecs.mk 0 0 0 0 "FHD"))
          (BB.better_ram (BB.Specs.mk 0 "Unknown" 0 0 "Integrated" 0 "Unknown")
            (BB.CurrentSpecs.mk 0 0 0 0 "FHD")) false
          (BB.bigger_screen (BB.Specs.mk 0 "Unknown" 0 0 "Integrated" 0 "Unknown")
            (BB.CurrentSpecs.mk 0 0 0 0 "FHD"))
          (BB.better_resolution (BB.Specs.mk 0 "Unknown" 0 0 "Integrated" 0 "Unknown")
            (BB.CurrentSpecs.mk 0 0 0 0 "FHD"))
          (BB.better_saving 5) ∧
      BB.Note.storagePlus 0 ∈
        BB.notesBase (BB.Specs.mk 0 "Unknown" 0 0 "Integrated" 0 "Unknown")
          (BB.CurrentSpecs.mk 0 0 0 0 "FHD") ∧
      BB.better_storageF (BB.Specs.mk 0 "Unknown" 0 0 "Integrated" 0 "Unknown")
        (BB.CurrentSpecs.mk 0 0 0 0 "FHD") = false) :=
  ⟨rfl, rfl, C10_storage_unguarded _ _ 5 rfl rfl⟩

/-! ## Claim C5 -/

/-- C5: in minimum-requirements mode a candidate is excluded exactly
when its memory is undetected (0), or — only when `show_all` is off —
some minimum dimension was detected and falls strictly below the
declared minimum; undetected attributes other than memory never cause
exclusion, and `show_all` skips the per-dimension checks but not the
mandatory memory check. -/
theorem C5_min_filter :
    ∀ (s : BB.Specs) (m : BB.MinSpecs) (sa : Bool),
      BB.excludedFilters s m sa = true ↔
        (s.ram = 0 ∨ (sa = false ∧ BB.specBelowMinimum s m)) := by
  intro s m sa
  by_cases h0 : s.ram = 0
  · simp [BB.excludedFilters, h0]
  · have hr : 0 < s.ram := Nat.pos_of_ne_zero h0
    cases sa
    · simp only [BB.excludedFilters, h0, if_false, Bool.not_false, if_true,
        BB.specBelowMinimum, false_or, true_and]
      split_ifs with h1 h2 h3 h4 h5
      · simp only [true_iff]
        exact Or.inl ⟨hr, h1⟩
      · simp only [true_iff]
        exact Or.inr (Or.inl h2)
      · simp only [true_iff]
        exact Or.inr (Or.inr (Or.inl h3))
      · simp only [true_iff]
        exact Or.inr (Or.inr (Or.inr (Or.inl h4)))
      · simp only [true_iff]
        exact Or.inr (Or.inr (Or.inr (Or.inr h5)))
      · simp only [Bool.false_eq_true, false_iff]
        rintro (⟨_, hb⟩ | hb | hb | hb | hb)
        · exact h1 hb
        · exact h2 hb
        · exact h3 hb
        · exact h4 hb
        · exact h5 hb
    · simp [BB.excludedFilters, h0]

/-! ## Claim C6 -/

/-- C6 counterexample: `recZeroEhf` carries its highest-precedence
price field (value 0), yet price resolution skips it and yields 500
from the next candidate — not the value 0 of that field, refuting the
claim that a record whose highest-precedence price field is present
(even with value 0) resolves to the value of that field. -/
theorem C6_price_cex :
    BB.recZeroEhf.priceWithoutEhf = some (BB.PVal.num 0) ∧
    BB.unwrapPrice (BB.PVal.num 0) = 0 ∧
    BB.resolve_price BB.recZeroEhf = 500 ∧
    BB.resolve_price BB.recZeroEhf ≠ BB.unwrapPrice (BB.PVal.num 0) := by
  refine ⟨rfl, rfl, by decide, by decide⟩

/-- C6 (amended): price resolution takes the first present-and-truthy
candidate field in precedence order (a present but falsy field — zero
number or empty structure — is skipped exactly like an absent one);
a compound resolved value is unwrapped to its nested customer-price
sub-field; records with no present price field resolve to 0. -/
theorem C6_price_amended :
    (∀ (p : BB.Record) (v : BB.PVal),
      p.priceWithoutEhf = some v → BB.pvTruthy v = true →
      BB.resolve_price p = BB.unwrapPrice v) ∧
    (∀ (p : BB.Record) (v : BB.PVal),
      p.customerPrice = some v → BB.falsyOpt p.priceWithoutEhf = true →
      BB.pvTruthy v = true →
      BB.resolve_price p = BB.unwrapPrice v) ∧
    (∀ (p : BB.Record) (v : BB.PVal),
      BB.falsyOpt p.priceWithoutEhf = true → BB.falsyOpt p.customerPrice = true →
      p.price = some v → BB.resolve_price p = BB.unwrapPrice v) ∧
    (∀ p : BB.Record,
      p.priceWithoutEhf = none → p.customerPrice = none → p.price = none →
      BB.resolve_price p = 0) ∧
    (∀ (p : BB.Record) (fs : List (String × ℚ)),
      BB.resolvedPriceRaw p = BB.PVal.obj fs →
      BB.resolve_price p = (fs.lookup "customerPrice").getD 0) := by
  refine ⟨?_, ?_, ?_, ?_, ?_⟩
  · intro p v h ht
    simp [BB.resolve_price, BB.resolvedPriceRaw, BB.pyOrV, h, ht]
  · intro p v hc hf ht
    rcases he : p.priceWithoutEhf with _ | w
    · simp [BB.resolve_price, BB.resolvedPriceRaw, BB.pyOrV, he, hc, ht]
    · rw [he] at hf
      simp only [BB.falsyOpt, Bool.not_eq_true'] at hf
      simp [BB.resolve_price, BB.resolvedPriceRaw, BB.pyOrV, he, hf, hc, ht]
  · intro p v he hc hp
    rcases h1 : p.priceWithoutEhf with _ | w1 <;> rcases h2 : p.customerPrice with _ | w2
    · simp [BB.resolve_price, BB.resolvedPriceRaw, BB.pyOrV, h1, h2, hp]
    · rw [h2] at hc
      simp only [BB.falsyOpt, Bool.not_eq_true'] at hc
      simp [BB.resolve_price, BB.resolvedPriceRaw, BB.pyOrV, h1, h2, hc, hp]
    · rw [h1] at he
      simp only [BB.falsyOpt, Bool.not_eq_true'] at he
      simp [BB.resolve_price, BB.resolvedPriceRaw, BB.pyOrV, h1, h2, he, hp]
    · rw [h1] at he
      rw [h2] at hc
      simp only [BB.falsyOpt, Bool.not_eq_true'] at he hc
      simp [BB.resolve_price, BB.resolvedPriceRaw, BB.pyOrV, h1, h2, he, hc, hp]
  · intro p h1 h2 h3
    simp [BB.resolve_price, BB.resolvedPriceRaw, BB.pyOrV, BB.unwrapPrice, h1, h2, h3]
  · intro p fs h
    simp [BB.resolve_price, h, BB.unwrapPrice]

/-- Witness for C6 (amended) at concrete records: a truthy
highest-precedence field resolves to its own value, and a record with
no price fields resolves to 0. -/
theorem C6_price_amended_witness :
    BB.recEhf750.priceWithoutEhf = some (BB.PVal.num 750) ∧
    BB.pvTruthy (BB.PVal.num 750) = true ∧
    BB.resolve_price BB.recEhf750 = BB.unwrapPrice (BB.PVal.num 750) ∧
    BB.recNoPrice.priceWithoutEhf = none ∧
    BB.resolve_price BB.recNoPrice = 0 :=
  ⟨rfl, by decide, C6_price_amended.1 BB.recEhf750 (BB.PVal.num 750) rfl (by decide),
    rfl, C6_price_amended.2.2.2.1 BB.recNoPrice rfl rfl rfl⟩

/-! ## Claim C3 -/

/-- C3 counterexample: "Ultra 7 Ryzen 7 7840" contains an `Ultra 7`
marker and no i-series marker, yet the extracted generation is 13 and
the model is "Ryzen 7 7840" — the later Ryzen pattern overrides the
Ultra result, refuting "generation 14 regardless of any other numeric
tokens present (including Ryzen patterns)". -/
theorem C3_ultra_cex :
    BB.searchPos BB.ultraAt "Ultra 7 Ryzen 7 7840".data = some ['7'] ∧
    BB.searchPos BB.intelAt "Ultra 7 Ryzen 7 7840".data = none ∧
    (BB.extract_specs "Ultra 7 Ryzen 7 7840").cpu_gen = 13 ∧
    (BB.extract_specs "Ultra 7 Ryzen 7 7840").cpu_model = "Ryzen 7 7840" ∧
    (BB.extract_specs "Ultra 7 Ryzen 7 7840").cpu_gen ≠ 14 ∧
    (BB.extract_specs "Ultra 7 Ryzen 7 7840").cpu_model ≠ "Ultra 7" := by
  refine ⟨by decide, by decide, by decide, by decide, by decide, by decide⟩

/-- C3 (amended): for every title containing an `Ultra <N>` marker, no
i-series marker, and additionally no Ryzen marker (the Ryzen pattern is
checked after the Ultra pattern and overrides it), the extracted
generation is 14 and the model label is `Ultra <N>`. -/
theorem C3_ultra_amended :
    ∀ (name : String) (g : List Char),
      BB.searchPos BB.ultraAt name.data = some g →
      BB.searchPos BB.intelAt name.data = none →
      BB.searchPos BB.amdAt name.data = none →
      (BB.extract_specs name).cpu_gen = 14 ∧
      (BB.extract_specs name).cpu_model = "Ultra " ++ String.mk g := by
  intro name g hu hi ha
  constructor <;> simp [BB.extract_specs, BB.cpuExtract, hu, hi, ha]

/-- Witness for C3 (amended) on "Core Ultra 7 Laptop". -/
theorem C3_ultra_amended_witness :
    BB.searchPos BB.ultraAt "Core Ultra 7 Laptop".data = some ['7'] ∧
    BB.searchPos BB.intelAt "Core Ultra 7 Laptop".data = none ∧
    BB.searchPos BB.amdAt "Core Ultra 7 Laptop".data = none ∧
    ((BB.extract_specs "Core Ultra 7 Laptop").cpu_gen = 14 ∧
      (BB.extract_specs "Core Ultra 7 Laptop").cpu_model = "Ultra " ++ String.mk ['7']) :=
  ⟨by decide, by decide, by decide,
    C3_ultra_amended "Core Ultra 7 Laptop" ['7'] (by decide) (by decide) (by decide)⟩

/-! ## Claim C9 -/

/-- C9: the two concrete classifications, and the general priority: a
refurbished keyword (with its excellent/good/(fair) grade qualifier
when present) outranks "open box", which outranks the default "New",
all matched case-insensitively on the lower-cased title. -/
theorem C9_condition :
    BB.extract_condition "Dell XPS 15 - Refurbished (Excellent)" = "Refurbished (Excellent)" ∧
    BB.extract_condition "New Open Box Laptop" = "Open Box" ∧
    (∀ name : String,
      BB.isSubList "refurbished".data (BB.lowerL name.data) = true →
      BB.extract_condition name ∈
        ["Refurbished (Excellent)", "Refurbished (Good)", "Refurbished (Fair)", "Refurbished"]) ∧
    (∀ name : String,
      BB.isSubList "refurbished".data (BB.lowerL name.data) = true →
      (BB.isSubList "(excellent)".data (BB.lowerL name.data) = true ∨
        BB.isSubList "excellent".data (BB.lowerL name.data) = true) →
      BB.extract_condition name = "Refurbished (Excellent)") ∧
    (∀ name : String,
      BB.isSubList "refurbished".data (BB.lowerL name.data) = false →
      BB.isSubList "open box".data (BB.lowerL name.data) = true →
      BB.extract_condition name = "Open Box") ∧
    (∀ name : String,
      BB.isSubList "refurbished".data (BB.lowerL name.data) = false →
      BB.isSubList "open box".data (BB.lowerL name.data) = false →
      BB.extract_condition name = "New") := by
  refine ⟨by decide, by decide, ?_, ?_, ?_, ?_⟩
  · intro name h
    simp only [BB.extract_condition, h, if_true]
    split_ifs <;> simp
  · intro name h hq
    have hq' : (BB.isSubList "(excellent)".data (BB.lowerL name.data) ||
        BB.isSubList "excellent".data (BB.lowerL name.data)) = true := by
      rcases hq with hq | hq <;> simp [hq]
    simp [BB.extract_condition, h, hq']
  · intro name h ho
    simp [BB.extract_condition, h, ho]
  · intro name h ho
    simp [BB.extract_condition, h, ho]

/-- Witness for C9's implication parts at concrete titles. -/
theorem C9_condition_witness :
    BB.isSubList "refurbished".data (BB.lowerL "PC, refurbished, good".data) = true ∧
    BB.extract_condition "PC, refurbished, good" ∈
      ["Refurbished (Excellent)", "Refurbished (Good)", "Refurbished (Fair)", "Refurbished"] ∧
    BB.isSubList "refurbished".data (BB.lowerL "Plain laptop".data) = false ∧
    BB.isSubList "open box".data (BB.lowerL "Plain laptop".data) = false ∧
    BB.extract_condition "Plain laptop" = "New" :=
  ⟨by decide, C9_condition.2.2.1 "PC, refurbished, good" (by decide),
    by decide, by decide, C9_condition.2.2.2.2.2 "Plain laptop" (by decide) (by decide)⟩

/-! ## Claim C8 -/

/-- The RAM loop yields the sentinel 0 unless some pattern matched and
the matched value passed the valid-size check. -/
theorem ramFromPatterns_spec (l : List (Option Nat)) :
    BB.ramFromPatterns l = 0 ∨
      (BB.validRam (BB.ramFromPatterns l) = true ∧ l.any Option.isSome = true) := by
  induction l with
  | nil => exact Or.inl rfl
  | cons o rest ih =>
    rcases o with _ | v
    · rcases ih with h | ⟨h1, h2⟩
      · exact Or.inl (by simpa [BB.ramFromPatterns] using h)
      · exact Or.inr ⟨by simpa [BB.ramFromPatterns] using h1, by simp [h2]⟩
    · by_cases hv : BB.validRam v = true
      · exact Or.inr ⟨by simp [BB.ramFromPatterns, hv], by simp⟩
      · rcases ih with h | ⟨h1, h2⟩
        · exact Or.inl (by simpa [BB.ramFromPatterns, hv] using h)
        · exact Or.inr ⟨by simpa [BB.ramFromPatterns, hv] using h1, by simp [h2]⟩

/-- The screen loop yields the sentinel 0 unless some pattern matched
and the value passed the 10–20 plausibility check. -/
theorem screenFromPatterns_spec (l : List (Option ℚ)) :
    BB.screenFromPatterns l = 0 ∨
      (10 ≤ BB.screenFromPatterns l ∧ BB.screenFromPatterns l ≤ 20 ∧
        l.any Option.isSome = true) := by
  induction l with
  | nil => exact Or.inl rfl
  | cons o rest ih =>
    rcases o with _ | v
    · rcases ih with h | ⟨h1, h2, h3⟩
      · exact Or.inl (by simpa [BB.screenFromPatterns] using h)
      · refine Or.inr ⟨?_, ?_, by simp [h3]⟩
        · simpa [BB.screenFromPatterns] using h1
        · simpa [BB.screenFromPatterns] using h2
    · by_cases hv : 10 ≤ v ∧ v ≤ 20
      · refine Or.inr ⟨?_, ?_, by simp⟩
        · rw [show BB.screenFromPatterns (some v :: rest) = v from by simp [BB.screenFromPatterns, hv]]
          exact hv.1
        · rw [show BB.screenFromPatterns (some v :: rest) = v from by simp [BB.screenFromPatterns, hv]]
          exact hv.2
      · rcases ih with h | ⟨h1, h2, h3⟩
        · exact Or.inl (by simpa [BB.screenFromPatterns, hv] using h)
        · refine Or.inr ⟨?_, ?_, by simp [h3]⟩
          · simpa [BB.screenFromPatterns, hv] using h1
          · simpa [BB.screenFromPatterns, hv] using h2

/-- The resolution loop yields the sentinel "Unknown" unless some table
entry's word search hit. -/
theorem resolutionFromList_spec (s : List Char) (l : List (List Char × Bool × Bool × String)) :
    BB.resolutionFromList s l = "Unknown" ∨
      l.any (fun e => BB.searchWord e.1 e.2.1 e.2.2.1 none s) = true := by
  induction l with
  | nil => exact Or.inl rfl
  | cons e rest ih =>
    obtain ⟨w, plus, endB, lab⟩ := e
    by_cases h : BB.searchWord w plus endB none s = true
    · exact Or.inr (by simp [h])
    · rcases ih with h2 | h2
      · exact Or.inl (by simpa [BB.resolutionFromList, h] using h2)
      · exact Or.inr (by simp [h2])

/-- C8: spec extraction is a total function of the title (the Lean
embedding is total by construction, mirroring that no extraction path
raises), and every field either retains its undetected sentinel
(generation 0 with model "Unknown", memory 0, storage 0, GPU
"Integrated", display size 0, resolution "Unknown") or was produced by
a successful pattern match (for memory, one that also passed the
valid-size check; for display size, the 10–20 plausibility check). -/
theorem C8_extraction_sentinels :
    ∀ name : String,
      (((BB.extract_specs name).cpu_gen = 0 ∧ (BB.extract_specs name).cpu_model = "Unknown") ∨
        (BB.searchPos BB.intelAt name.data).isSome = true ∨
        (BB.searchPos BB.ultraAt name.data).isSome = true ∨
        (BB.searchPos BB.amdAt name.data).isSome = true) ∧
      ((BB.extract_specs name).ram = 0 ∨
        (BB.validRam (BB.extract_specs name).ram = true ∧
          [BB.searchPos BB.ramP1At name.data, BB.searchPos BB.ramP2At name.data,
            BB.searchPos BB.ramP3At name.data, BB.searchPos BB.ramP4At name.data,
            BB.searchPos BB.ramP5At name.data,
            BB.searchPos BB.ramP6At name.data].any Option.isSome = true)) ∧
      ((BB.extract_specs name).storage = 0 ∨
        (BB.searchPos BB.stoP1At name.data).isSome = true ∨
        (BB.searchPos BB.stoP2At name.data).isSome = true ∨
        (BB.searchPos BB.stoP3At name.data).isSome = true ∨
        (BB.searchPos BB.stoP4At name.data).isSome = true ∨
        (BB.searchPos BB.stoP5At name.data).isSome = true ∨
        (BB.searchPos BB.stoP6At name.data).isSome = true) ∧
      ((BB.extract_specs name).gpu = "Integrated" ∨
        (BB.searchPos BB.gpuAt name.data).isSome = true) ∧
      ((BB.extract_specs name).screen_size = 0 ∨
        (10 ≤ (BB.extract_specs name).screen_size ∧ (BB.extract_specs name).screen_size ≤ 20 ∧
          [BB.searchPos BB.scrP1At name.data, BB.searchPos BB.scrP2At name.data,
            BB.searchPos BB.scrP3At name.data].any Option.isSome = true)) ∧
      ((BB.extract_specs name).resolution = "Unknown" ∨
        BB.resolutionTable.any
          (fun e => BB.searchWord e.1 e.2.1 e.2.2.1 none name.data) = true) := by
  intro name
  refine ⟨?_, ?_, ?_, ?_, ?_, ?_⟩
  · rcases h1 : BB.searchPos BB.intelAt name.data with _ | g1
    · rcases h2 : BB.searchPos BB.ultraAt name.data with _ | g2
      · rcases h3 : BB.searchPos BB.amdAt name.data with _ | g3
        · refine Or.inl ⟨?_, ?_⟩ <;> simp [BB.extract_specs, BB.cpuExtract, h1, h2, h3]
        · exact Or.inr (Or.inr (Or.inr (by simp [h3])))
      · exact Or.inr (Or.inr (Or.inl (by simp [h2])))
    · exact Or.inr (Or.inl (by simp [h1]))
  · exact ramFromPatterns_spec _
  · rcases h1 : BB.searchPos BB.stoP1At name.data with _ | g1
    · rcases h2 : BB.searchPos BB.stoP2At name.data with _ | g2
      · rcases h3 : BB.searchPos BB.stoP3At name.data with _ | g3
        · rcases h4 : BB.searchPos BB.stoP4At name.data with _ | g4
          · rcases h5 : BB.searchPos BB.stoP5At name.data with _ | g5
            · rcases h6 : BB.searchPos BB.stoP6At name.data with _ | g6
              · refine Or.inl ?_
                simp [BB.extract_specs, BB.storageExtract, h1, h2, h3, h4, h5, h6,
                  BB.parse_size]
              · exact Or.inr (Or.inr (Or.inr (Or.inr (Or.inr (Or.inr (by simp [h6]))))))
            · exact Or.inr (Or.inr (Or.inr (Or.inr (Or.inr (Or.inl (by simp [h5]))))))
          · exact Or.inr (Or.inr (Or.inr (Or.inr (Or.inl (by simp [h4])))))
        · exact Or.inr (Or.inr (Or.inr (Or.inl (by simp [h3]))))
      · exact Or.inr (Or.inr (Or.inl (by simp [h2])))
    · exact Or.inr (Or.inl (by simp [h1]))
  · rcases h1 : BB.searchPos BB.gpuAt name.data with _ | g
    · exact Or.inl (by simp [BB.extract_specs, BB.gpuExtract, h1])
    · exact Or.inr (by simp [h1])
  · exact screenFromPatterns_spec _
  · exact resolutionFromList_spec name.data BB.resolutionTable

/-! ## Claim C2 -/

/-- `dealLE` is transitive. -/
theorem dealLE_trans : ∀ a b c : BB.Deal, BB.dealLE a b → BB.dealLE b c → BB.dealLE a c := by
  intro a b c hab hbc
  simp only [BB.dealLE, Bool.or_eq_true, Bool.and_eq_true, decide_eq_true_eq] at *
  rcases hab with h1 | ⟨h1, h2⟩ <;> rcases hbc with h3 | ⟨h3, h4⟩
  · exact Or.inl (h3.trans h1)
  · exact Or.inl (by omega)
  · exact Or.inl (by omega)
  · exact Or.inr ⟨h1.trans h3, h2.trans h4⟩

/-- `dealLE` is total. -/
theorem dealLE_total : ∀ a b : BB.Deal, (BB.dealLE a b || BB.dealLE b a) = true := by
  intro a b
  simp only [BB.dealLE, Bool.or_eq_true, Bool.and_eq_true, decide_eq_true_eq]
  rcases Nat.lt_trichotomy a.score b.score with h | h | h
  · exact Or.inr (Or.inl h)
  · rcases le_total a.price b.price with hp | hp
    · exact Or.inl (Or.inr ⟨h, hp⟩)
    · exact Or.inr (Or.inr ⟨h.symm, hp⟩)
  · exact Or.inl (Or.inl h)

/-- Stability of the sort on an exact score/price tie class: the
sorted output restricted to one key equals the input restricted to
that key. -/
theorem mergeSort_filter_key (l : List BB.Deal) (sc : Nat) (pr : ℚ) :
    (l.mergeSort BB.dealLE).filter (fun d => decide (d.score = sc ∧ d.price = pr)) =
      l.filter (fun d => decide (d.score = sc ∧ d.price = pr)) := by
  set p : BB.Deal → Bool := fun d => decide (d.score = sc ∧ d.price = pr) with hp
  have hall : ∀ a b : BB.Deal, p a = true → p b = true → BB.dealLE a b = true := by
    intro a b ha hb
    rw [hp] at ha hb
    simp only [decide_eq_true_eq] at ha hb
    simp only [BB.dealLE, Bool.or_eq_true, Bool.and_eq_true, decide_eq_true_eq]
    exact Or.inr ⟨ha.1.trans hb.1.symm, by rw [ha.2, hb.2]⟩
  have hpw : (l.filter p).Pairwise (fun a b => BB.dealLE a b = true) :=
    List.pairwise_of_forall_mem_list (fun a ha b hb =>
      hall a b (List.of_mem_filter ha) (List.of_mem_filter hb))
  have hsub : List.Sublist (l.filter p) (l.mergeSort BB.dealLE) :=
    List.sublist_mergeSort dealLE_trans dealLE_total hpw (List.filter_sublist l)
  have hsub2 : List.Sublist (l.filter p) ((l.mergeSort BB.dealLE).filter p) := by
    have h := hsub.filter p
    rwa [List.filter_filter, show (fun a => p a && p a) = p from funext fun a => Bool.and_self _]
      at h
  have hperm : ((l.mergeSort BB.dealLE).filter p).length = (l.filter p).length :=
    ((List.mergeSort_perm l BB.dealLE).filter p).length_eq
  exact (hsub2.eq_of_length hperm.symm).symm

/-- C2: the base analysis output is sorted by composite score
descending, then price ascending; and for every exact score/price key,
the output's deals with that key appear exactly as in the pre-sort
per-product order (`dealsPreBase` maps over the input products in input
order), i.e. ties are stable with respect to the input. -/
theorem C2_rank_sorted_stable :
    ∀ (products : List BB.Record) (cur : BB.CurrentSpecs) (sa : Bool) (country : String)
      (fi : Bool),
      (BB.analyze_deals products cur sa country fi).1.Pairwise
        (fun a b => b.score < a.score ∨ (a.score = b.score ∧ a.price ≤ b.price)) ∧
      (∀ (sc : Nat) (pr : ℚ),
        (BB.analyze_deals products cur sa country fi).1.filter
            (fun d => decide (d.score = sc ∧ d.price = pr)) =
          (BB.dealsPreBase products cur sa country fi).filter
            (fun d => decide (d.score = sc ∧ d.price = pr))) := by
  intro products cur sa country fi
  constructor
  · have h := List.sorted_mergeSort dealLE_trans dealLE_total
      (BB.dealsPreBase products cur sa country fi)
    refine h.imp ?_
    intro a b hab
    simpa only [BB.dealLE, Bool.or_eq_true, Bool.and_eq_true, decide_eq_true_eq] using hab
  · intro sc pr
    exact mergeSort_filter_key _ sc pr
